import Mathlib

/-!
# CubeTexture (ch07/CubeTexture.js)

A shallow embedding of the `CubeTexture` class: a cube-map texture loader that
creates one texture object, allocates placeholder storage for the six faces,
starts six image fetches and uploads each image when its `onload` handler runs.

The graphics context and the image facility are collaborators of the class.
They are modelled by

* `GLContext`: the constant properties read from the context object (`gl.RGBA`,
  `gl["TEXTURE_CUBE_MAP_POSITIVE_X"]`, ...), kept abstract as a lookup by
  property name;
* `GLState`: the part of the context state the class can influence: the
  texture bound to the cube-map binding point and the level-0 image of every
  face of every texture;
* `World`: the context state, the ordered log of every graphics call and of
  every `image.src = url` assignment, and the `onload` closures that are
  registered and have not run yet.

JavaScript runs each method and each event handler to completion, so a method
call and the run of one `onload` handler are atomic steps of `World`.
-/

/-- A WebGL enumeration value (`GLenum`). -/
abbrev GLenum := Nat

/-- Identity of a texture object returned by `createTexture`. -/
abbrev Handle := Nat

/-- Identity of an `Image` object created by `new Image()`. -/
abbrev ImageId := Nat

/-- Decoded pixel content of an image; the class never inspects it. -/
abbrev ImageData := List Nat

/-- Constant properties of the context object, read by name: `gl.RGBA` is
`gl.prop "RGBA"` and `gl[name]` is `gl.prop name`. -/
structure GLContext where
  prop : String → GLenum

/-- The graphics calls the class issues, with their arguments. `texImage2D` is
the nine-argument overload (its last argument is the pixel array or `null`),
`texImage2DImage` the six-argument overload whose last argument is an image
object (recorded with the content it holds when the call is made). -/
inductive GLCall where
  | createTexture (ret : Handle)
  | bindTexture (target : GLenum) (texture : Option Handle)
  | texParameteri (target pname param : GLenum)
  | texImage2D (target : GLenum) (level : Nat) (internalformat : GLenum)
      (width height border : Nat) (format type : GLenum) (pixels : Option ImageData)
  | texImage2DImage (target : GLenum) (level : Nat) (internalformat format type : GLenum)
      (image : ImageId) (data : ImageData)
  | generateMipmap (target : GLenum)
  deriving DecidableEq, Repr

/-- What the outside world can observe, in order: a graphics call, or the
assignment `image.src = url`, which starts the fetch of `url`. -/
inductive Event where
  | gl (call : GLCall)
  | imageSrc (image : ImageId) (url : String)
  deriving DecidableEq, Repr

/-- Level-0 image of one cube face: zero-filled storage of a given size, or the
content of an uploaded image. -/
inductive FaceImage where
  | blank (width height : Nat) (internalformat type : GLenum)
  | decoded (data : ImageData) (internalformat type : GLenum)
  deriving DecidableEq, Repr

/-- The context state the class can influence. `nextTexture` is the identity the
next `createTexture` call returns: every call returns a new texture object
(a lost context, for which it returns `null`, is not modelled). -/
structure GLState where
  nextTexture : Handle
  boundCube : Option Handle
  level0 : Handle → GLenum → Option FaceImage

/-- The six cube-map face targets of a context. -/
def GLContext.faceTargets (gl : GLContext) : List GLenum :=
  [gl.prop "TEXTURE_CUBE_MAP_POSITIVE_X", gl.prop "TEXTURE_CUBE_MAP_NEGATIVE_X",
   gl.prop "TEXTURE_CUBE_MAP_POSITIVE_Y", gl.prop "TEXTURE_CUBE_MAP_NEGATIVE_Y",
   gl.prop "TEXTURE_CUBE_MAP_POSITIVE_Z", gl.prop "TEXTURE_CUBE_MAP_NEGATIVE_Z"]

/-- Store `img` as the level-0 image of face `target` of the texture bound to
the cube-map binding point; without a bound texture, or for a target that is
not a cube face, or for another level, the tracked state does not change. The
validation a context applies to sizes and formats is not modelled. -/
def GLState.setFace (gl : GLContext) (s : GLState) (target : GLenum) (level : Nat)
    (img : FaceImage) : GLState :=
  match s.boundCube with
  | some h =>
    if target ∈ gl.faceTargets ∧ level = 0 then
      { s with level0 := fun h2 t => if h2 = h ∧ t = target then some img else s.level0 h2 t }
    else s
  | none => s

/-- Effect of one graphics call on the tracked context state. Filter
parameters and mipmap levels above 0 are not tracked. -/
def GLState.exec (gl : GLContext) (s : GLState) : GLCall → GLState
  | .createTexture _ => { s with nextTexture := s.nextTexture + 1 }
  | .bindTexture target texture =>
    if target = gl.prop "TEXTURE_CUBE_MAP" then { s with boundCube := texture } else s
  | .texParameteri _ _ _ => s
  | .texImage2D target level internalformat width height _ _ type pixels =>
    match pixels with
    | none => s.setFace gl target level (.blank width height internalformat type)
    | some data => s.setFace gl target level (.decoded data internalformat type)
  | .texImage2DImage target level internalformat _ type _ data =>
    s.setFace gl target level (.decoded data internalformat type)
  | .generateMipmap _ => s

/-- The closure assigned to `image.onload` in `loadCubemapFace`: it captures
the image object, the face target and the texture handle. -/
structure Pending where
  image : ImageId
  target : GLenum
  glTexture : Handle
  deriving DecidableEq, Repr

/-- Context state, observable log, registered `onload` closures that have not
run, and the identity the next `new Image()` gets. -/
structure World where
  gl : GLState
  log : List Event
  pending : List Pending
  nextImage : ImageId

/-- A new context: no texture, nothing bound, nothing logged, no image. -/
def World.fresh : World :=
  { gl := { nextTexture := 0, boundCube := none, level0 := fun _ _ => none },
    log := [], pending := [], nextImage := 0 }

/-- Issue one graphics call: it acts on the context and is logged. -/
def World.call (gl : GLContext) (w : World) (c : GLCall) : World :=
  { w with gl := w.gl.exec gl c, log := w.log ++ [Event.gl c] }

/-- The instance fields of a `CubeTexture` besides the context reference. -/
structure CubeTexture where
  glTexture : Handle
  deriving DecidableEq, Repr

namespace CubeTexture

/-- `String.prototype.toLowerCase` on the ASCII strings the class applies it to. -/
def toLowerCase (s : String) : String := ⟨s.data.map Char.toLower⟩

/-- The constant `directions` of `loadCubeFaces`. -/
def directions : List String := ["POSITIVE", "NEGATIVE"]

/-- The constant `axis` of `loadCubeFaces`. -/
def axis : List String := ["X", "Y", "Z"]

/-- The `onload` handler registered by `loadCubemapFace`, run when the image
holds the decoded content `data`. -/
def onload (gl : GLContext) (p : Pending) (data : ImageData) (w : World) : World :=
  let w := w.call gl (.bindTexture (gl.prop "TEXTURE_CUBE_MAP") (some p.glTexture))
  let w := w.call gl (.texImage2DImage p.target 0 (gl.prop "RGBA") (gl.prop "RGBA")
    (gl.prop "UNSIGNED_BYTE") p.image data)
  let w := w.call gl (.generateMipmap (gl.prop "TEXTURE_CUBE_MAP"))
  w.call gl (.bindTexture (gl.prop "TEXTURE_CUBE_MAP") none)

/-- Method `loadCubemapFace(target, url)`. -/
def loadCubemapFace (gl : GLContext) (self : CubeTexture) (target : GLenum) (url : String)
    (w : World) : World :=
  let level := 0
  let internalFormat := gl.prop "RGBA"
  let width := 512
  let height := 512
  let format := gl.prop "RGBA"
  let type := gl.prop "UNSIGNED_BYTE"
  let w := w.call gl (.texImage2D target level internalFormat width height 0 format type none)
  -- const image = new Image();
  let image := w.nextImage
  let w := { w with nextImage := w.nextImage + 1 }
  -- image.src = url;
  let w := { w with log := w.log ++ [Event.imageSrc image url] }
  -- image.onload = () => ...
  { w with pending := w.pending ++ [{ image := image, target := target,
                                      glTexture := self.glTexture }] }

/-- Method `loadCubeFaces(source)`: the outer loop runs over `axis`, the inner
loop over `directions`. -/
def loadCubeFaces (gl : GLContext) (self : CubeTexture) (source : String) (w : World) : World :=
  let w := w.call gl (.bindTexture (gl.prop "TEXTURE_CUBE_MAP") (some self.glTexture))
  let w := w.call gl (.texParameteri (gl.prop "TEXTURE_CUBE_MAP")
    (gl.prop "TEXTURE_MAG_FILTER") (gl.prop "LINEAR"))
  let w := w.call gl (.texParameteri (gl.prop "TEXTURE_CUBE_MAP")
    (gl.prop "TEXTURE_MIN_FILTER") (gl.prop "LINEAR_MIPMAP_LINEAR"))
  let w := axis.foldl (fun w a =>
    directions.foldl (fun w d =>
      let target := gl.prop ("TEXTURE_CUBE_MAP_" ++ d ++ "_" ++ a)
      let url := source ++ toLowerCase d ++ "-" ++ toLowerCase a ++ ".png"
      loadCubemapFace gl self target url w) w) w
  let w := w.call gl (.generateMipmap (gl.prop "TEXTURE_CUBE_MAP"))
  w.call gl (.bindTexture (gl.prop "TEXTURE_CUBE_MAP") none)

/-- JavaScript truthiness of the constructor argument `source`: `none` is an
absent (undefined) argument; the empty string is falsy like `undefined`. -/
def truthy : Option String → Bool
  | none => false
  | some s => s != ""

/-- The constructor `new CubeTexture(gl, source)`. -/
def new (gl : GLContext) (source : Option String) (w : World) : CubeTexture × World :=
  -- this.glTexture = gl.createTexture();
  let h := w.gl.nextTexture
  let w := w.call gl (.createTexture h)
  let self : CubeTexture := { glTexture := h }
  match source with
  | some s => if truthy (some s) then (self, loadCubeFaces gl self s w) else (self, w)
  | none => (self, w)

/-- An atomic step of a loader after construction: a call of `loadCubeFaces`,
or the host running a registered `onload` closure with the decoded image. A
closure that is not registered (any more) does not run. -/
inductive Action where
  | loadCubeFaces (source : String)
  | load (p : Pending) (data : ImageData)
  deriving DecidableEq, Repr

/-- Run one action. -/
def step (gl : GLContext) (self : CubeTexture) (w : World) : Action → World
  | .loadCubeFaces source => loadCubeFaces gl self source w
  | .load p data =>
    if p ∈ w.pending then onload gl p data { w with pending := w.pending.erase p } else w

/-- Run a sequence of actions. -/
def run (gl : GLContext) (self : CubeTexture) (w : World) (as : List Action) : World :=
  as.foldl (step gl self) w

/-- The standard WebGL values of the constants the class reads. -/
def webgl : GLContext where
  prop name :=
    if name = "TEXTURE_CUBE_MAP" then 0x8513
    else if name = "TEXTURE_CUBE_MAP_POSITIVE_X" then 0x8515
    else if name = "TEXTURE_CUBE_MAP_NEGATIVE_X" then 0x8516
    else if name = "TEXTURE_CUBE_MAP_POSITIVE_Y" then 0x8517
    else if name = "TEXTURE_CUBE_MAP_NEGATIVE_Y" then 0x8518
    else if name = "TEXTURE_CUBE_MAP_POSITIVE_Z" then 0x8519
    else if name = "TEXTURE_CUBE_MAP_NEGATIVE_Z" then 0x851A
    else if name = "TEXTURE_MAG_FILTER" then 0x2800
    else if name = "TEXTURE_MIN_FILTER" then 0x2801
    else if name = "LINEAR" then 0x2601
    else if name = "LINEAR_MIPMAP_LINEAR" then 0x2703
    else if name = "RGBA" then 0x1908
    else if name = "UNSIGNED_BYTE" then 0x1401
    else 0

/-- The six (face target, URL) pairs of a base URL as the specification lists
them: +X, -X, +Y, -Y, +Z, -Z, each with `source` + sign + `-` + axis + `.png`. -/
def facePairs (gl : GLContext) (source : String) : List (GLenum × String) :=
  [(gl.prop "TEXTURE_CUBE_MAP_POSITIVE_X", source ++ "positive-x.png"),
   (gl.prop "TEXTURE_CUBE_MAP_NEGATIVE_X", source ++ "negative-x.png"),
   (gl.prop "TEXTURE_CUBE_MAP_POSITIVE_Y", source ++ "positive-y.png"),
   (gl.prop "TEXTURE_CUBE_MAP_NEGATIVE_Y", source ++ "negative-y.png"),
   (gl.prop "TEXTURE_CUBE_MAP_POSITIVE_Z", source ++ "positive-z.png"),
   (gl.prop "TEXTURE_CUBE_MAP_NEGATIVE_Z", source ++ "negative-z.png")]

/-- The prologue of `loadCubeFaces`: bind the texture and set both filters. -/
def prologue (gl : GLContext) (self : CubeTexture) (w : World) : World :=
  ((w.call gl (.bindTexture (gl.prop "TEXTURE_CUBE_MAP") (some self.glTexture))).call gl
    (.texParameteri (gl.prop "TEXTURE_CUBE_MAP") (gl.prop "TEXTURE_MAG_FILTER")
      (gl.prop "LINEAR"))).call gl
    (.texParameteri (gl.prop "TEXTURE_CUBE_MAP") (gl.prop "TEXTURE_MIN_FILTER")
      (gl.prop "LINEAR_MIPMAP_LINEAR"))

/-- The epilogue of `loadCubeFaces`: generate the mipmaps and unbind. -/
def epilogue (gl : GLContext) (w : World) : World :=
  (w.call gl (.generateMipmap (gl.prop "TEXTURE_CUBE_MAP"))).call gl
    (.bindTexture (gl.prop "TEXTURE_CUBE_MAP") none)

/-- The placeholder allocation `loadCubemapFace` issues for a face target. -/
def placeholderCall (gl : GLContext) (target : GLenum) : GLCall :=
  .texImage2D target 0 (gl.prop "RGBA") 512 512 0 (gl.prop "RGBA") (gl.prop "UNSIGNED_BYTE") none

/-- The events one `loadCubeFaces` call appends to the log when the next image
identity is `n`. -/
def loadEvents (gl : GLContext) (self : CubeTexture) (source : String) (n : ImageId) :
    List Event :=
  [.gl (.bindTexture (gl.prop "TEXTURE_CUBE_MAP") (some self.glTexture)),
   .gl (.texParameteri (gl.prop "TEXTURE_CUBE_MAP") (gl.prop "TEXTURE_MAG_FILTER")
      (gl.prop "LINEAR")),
   .gl (.texParameteri (gl.prop "TEXTURE_CUBE_MAP") (gl.prop "TEXTURE_MIN_FILTER")
      (gl.prop "LINEAR_MIPMAP_LINEAR")),
   .gl (placeholderCall gl (gl.prop "TEXTURE_CUBE_MAP_POSITIVE_X")),
   .imageSrc n (source ++ "positive-x.png"),
   .gl (placeholderCall gl (gl.prop "TEXTURE_CUBE_MAP_NEGATIVE_X")),
   .imageSrc (n + 1) (source ++ "negative-x.png"),
   .gl (placeholderCall gl (gl.prop "TEXTURE_CUBE_MAP_POSITIVE_Y")),
   .imageSrc (n + 2) (source ++ "positive-y.png"),
   .gl (placeholderCall gl (gl.prop "TEXTURE_CUBE_MAP_NEGATIVE_Y")),
   .imageSrc (n + 3) (source ++ "negative-y.png"),
   .gl (placeholderCall gl (gl.prop "TEXTURE_CUBE_MAP_POSITIVE_Z")),
   .imageSrc (n + 4) (source ++ "positive-z.png"),
   .gl (placeholderCall gl (gl.prop "TEXTURE_CUBE_MAP_NEGATIVE_Z")),
   .imageSrc (n + 5) (source ++ "negative-z.png"),
   .gl (.generateMipmap (gl.prop "TEXTURE_CUBE_MAP")),
   .gl (.bindTexture (gl.prop "TEXTURE_CUBE_MAP") none)]

/-- The closures one `loadCubeFaces` call registers when the next image
identity is `n`. -/
def loadPending (gl : GLContext) (self : CubeTexture) (n : ImageId) : List Pending :=
  [⟨n, gl.prop "TEXTURE_CUBE_MAP_POSITIVE_X", self.glTexture⟩,
   ⟨n + 1, gl.prop "TEXTURE_CUBE_MAP_NEGATIVE_X", self.glTexture⟩,
   ⟨n + 2, gl.prop "TEXTURE_CUBE_MAP_POSITIVE_Y", self.glTexture⟩,
   ⟨n + 3, gl.prop "TEXTURE_CUBE_MAP_NEGATIVE_Y", self.glTexture⟩,
   ⟨n + 4, gl.prop "TEXTURE_CUBE_MAP_POSITIVE_Z", self.glTexture⟩,
   ⟨n + 5, gl.prop "TEXTURE_CUBE_MAP_NEGATIVE_Z", self.glTexture⟩]

/-- The four calls one `onload` run issues. -/
def onloadEvents (gl : GLContext) (p : Pending) (data : ImageData) : List Event :=
  [.gl (.bindTexture (gl.prop "TEXTURE_CUBE_MAP") (some p.glTexture)),
   .gl (.texImage2DImage p.target 0 (gl.prop "RGBA") (gl.prop "RGBA") (gl.prop "UNSIGNED_BYTE")
      p.image data),
   .gl (.generateMipmap (gl.prop "TEXTURE_CUBE_MAP")),
   .gl (.bindTexture (gl.prop "TEXTURE_CUBE_MAP") none)]

/-- The URLs whose fetch a log records, in order. -/
def fetchUrls : List Event → List String
  | [] => []
  | .imageSrc _ url :: es => url :: fetchUrls es
  | .gl _ :: es => fetchUrls es

/-- Number of `createTexture` calls a log records. -/
def createCount : List Event → Nat
  | [] => 0
  | .gl (.createTexture _) :: es => createCount es + 1
  | _ :: es => createCount es

/-- Number of outstanding fetches of a loader: the closures registered for its
texture that have not run. -/
def outstanding (self : CubeTexture) (w : World) : Nat :=
  (w.pending.filter (fun p => p.glTexture = self.glTexture)).length

/-- Number of `loadCubeFaces` calls in a sequence of actions. -/
def invocations : List Action → Nat
  | [] => 0
  | .loadCubeFaces _ :: as => invocations as + 1
  | .load _ _ :: as => invocations as

/-- The actions that run the closures of `order` one after the other, each with
the decoded content `img` gives for its image. -/
def loadActions (img : ImageId → ImageData) (order : List Pending) : List Action :=
  order.map (fun p => Action.load p (img p.image))

/-! ## Strings built by `loadCubeFaces` -/

theorem url_eq (source d a : String) (r : String)
    (h : toLowerCase d ++ "-" ++ toLowerCase a ++ ".png" = r) :
    source ++ toLowerCase d ++ "-" ++ toLowerCase a ++ ".png" = source ++ r := by
  rw [← h]; simp only [String.append_assoc]

theorem loadCubeFaces_eq_pairs (gl : GLContext) (self : CubeTexture) (source : String)
    (w : World) :
    loadCubeFaces gl self source w =
      epilogue gl ((facePairs gl source).foldl
        (fun w p => loadCubemapFace gl self p.1 p.2 w) (prologue gl self w)) := by
  have e1 : "TEXTURE_CUBE_MAP_" ++ "POSITIVE" ++ "_" ++ "X" = "TEXTURE_CUBE_MAP_POSITIVE_X" := by
    decide
  have e2 : "TEXTURE_CUBE_MAP_" ++ "NEGATIVE" ++ "_" ++ "X" = "TEXTURE_CUBE_MAP_NEGATIVE_X" := by
    decide
  have e3 : "TEXTURE_CUBE_MAP_" ++ "POSITIVE" ++ "_" ++ "Y" = "TEXTURE_CUBE_MAP_POSITIVE_Y" := by
    decide
  have e4 : "TEXTURE_CUBE_MAP_" ++ "NEGATIVE" ++ "_" ++ "Y" = "TEXTURE_CUBE_MAP_NEGATIVE_Y" := by
    decide
  have e5 : "TEXTURE_CUBE_MAP_" ++ "POSITIVE" ++ "_" ++ "Z" = "TEXTURE_CUBE_MAP_POSITIVE_Z" := by
    decide
  have e6 : "TEXTURE_CUBE_MAP_" ++ "NEGATIVE" ++ "_" ++ "Z" = "TEXTURE_CUBE_MAP_NEGATIVE_Z" := by
    decide
  have u1 := url_eq source "POSITIVE" "X" "positive-x.png" (by decide)
  have u2 := url_eq source "NEGATIVE" "X" "negative-x.png" (by decide)
  have u3 := url_eq source "POSITIVE" "Y" "positive-y.png" (by decide)
  have u4 := url_eq source "NEGATIVE" "Y" "negative-y.png" (by decide)
  have u5 := url_eq source "POSITIVE" "Z" "positive-z.png" (by decide)
  have u6 := url_eq source "NEGATIVE" "Z" "negative-z.png" (by decide)
  simp only [loadCubeFaces, axis, directions, List.foldl, facePairs, epilogue, prologue,
    e1, e2, e3, e4, e5, e6, u1, u2, u3, u4, u5, u6]

theorem loadCubeFaces_log (gl : GLContext) (self : CubeTexture) (source : String) (w : World) :
    (loadCubeFaces gl self source w).log = w.log ++ loadEvents gl self source w.nextImage := by
  simp [loadCubeFaces_eq_pairs, epilogue, prologue, facePairs, loadCubemapFace, World.call,
    loadEvents, placeholderCall]

theorem loadCubeFaces_pending (gl : GLContext) (self : CubeTexture) (source : String)
    (w : World) :
    (loadCubeFaces gl self source w).pending = w.pending ++ loadPending gl self w.nextImage := by
  simp [loadCubeFaces_eq_pairs, epilogue, prologue, facePairs, loadCubemapFace, World.call,
    loadPending]

theorem loadCubeFaces_nextImage (gl : GLContext) (self : CubeTexture) (source : String)
    (w : World) :
    (loadCubeFaces gl self source w).nextImage = w.nextImage + 6 := by
  simp [loadCubeFaces_eq_pairs, epilogue, prologue, facePairs, loadCubemapFace, World.call]

theorem loadCubeFaces_boundCube (gl : GLContext) (self : CubeTexture) (source : String)
    (w : World) :
    (loadCubeFaces gl self source w).gl.boundCube = none := by
  simp [loadCubeFaces_eq_pairs, epilogue, World.call, GLState.exec]

theorem loadCubeFaces_nextTexture (gl : GLContext) (self : CubeTexture) (source : String)
    (w : World) :
    (loadCubeFaces gl self source w).gl.nextTexture = w.gl.nextTexture := by
  simp [loadCubeFaces_eq_pairs, epilogue, prologue, facePairs, loadCubemapFace, World.call,
    GLState.exec, GLState.setFace, GLContext.faceTargets]

theorem loadCubeFaces_level0 (gl : GLContext) (self : CubeTexture) (source : String)
    (w : World) (h : Handle) (t : GLenum) :
    (loadCubeFaces gl self source w).gl.level0 h t =
      if h = self.glTexture ∧ t ∈ gl.faceTargets then
        some (.blank 512 512 (gl.prop "RGBA") (gl.prop "UNSIGNED_BYTE"))
      else w.gl.level0 h t := by
  simp [loadCubeFaces_eq_pairs, epilogue, prologue, facePairs, loadCubemapFace, World.call,
    GLState.exec, GLState.setFace, GLContext.faceTargets]
  split_ifs <;> first | rfl | (exfalso; tauto)

/-! ## The `onload` handler -/

theorem onload_log (gl : GLContext) (p : Pending) (data : ImageData) (w : World) :
    (onload gl p data w).log = w.log ++ onloadEvents gl p data := by
  simp [onload, World.call, onloadEvents]

theorem onload_pending (gl : GLContext) (p : Pending) (data : ImageData) (w : World) :
    (onload gl p data w).pending = w.pending := by
  simp [onload, World.call]

theorem onload_boundCube (gl : GLContext) (p : Pending) (data : ImageData) (w : World) :
    (onload gl p data w).gl.boundCube = none := by
  simp [onload, World.call, GLState.exec]

theorem onload_level0 (gl : GLContext) (p : Pending) (data : ImageData) (w : World)
    (h : Handle) (t : GLenum) :
    (onload gl p data w).gl.level0 h t =
      if h = p.glTexture ∧ t = p.target ∧ p.target ∈ gl.faceTargets then
        some (.decoded data (gl.prop "RGBA") (gl.prop "UNSIGNED_BYTE"))
      else w.gl.level0 h t := by
  by_cases hf : p.target ∈ gl.faceTargets
  · simp [onload, World.call, GLState.exec, GLState.setFace, hf]
  · simp [onload, World.call, GLState.exec, GLState.setFace, hf]

theorem fetchUrls_append (l m : List Event) :
    fetchUrls (l ++ m) = fetchUrls l ++ fetchUrls m := by
  induction l with
  | nil => rfl
  | cons e es ih => cases e <;> simp [fetchUrls, ih]

theorem createCount_append (l m : List Event) :
    createCount (l ++ m) = createCount l + createCount m := by
  induction l with
  | nil => simp [createCount]
  | cons e es ih =>
    cases e with
    | imageSrc i u => simp [createCount, ih]
    | gl c => cases c <;> simp +arith [createCount, ih]

theorem fetchUrls_loadEvents (gl : GLContext) (self : CubeTexture) (source : String)
    (n : ImageId) :
    fetchUrls (loadEvents gl self source n) = (facePairs gl source).map Prod.snd := by
  simp [loadEvents, fetchUrls, facePairs]

theorem createCount_loadEvents (gl : GLContext) (self : CubeTexture) (source : String)
    (n : ImageId) :
    createCount (loadEvents gl self source n) = 0 := by
  simp [loadEvents, createCount, placeholderCall]

/-! ## Claims about `loadCubeFaces` -/

/-- C1: for every base URL string `B`, `loadCubeFaces(B)` is its prologue, then
exactly six calls of `loadCubemapFace`, then its epilogue; the (face target,
URL) pairs passed are, in order, +X, -X, +Y, -Y, +Z, -Z, each with the URL
`B` + sign + `-` + axis + `.png` of the same sign and axis, and the six
fetches it starts are those six URLs in that order. -/
theorem loadCubeFaces_calls_six_faces (gl : GLContext) (self : CubeTexture) (B : String)
    (w : World) :
    loadCubeFaces gl self B w =
      epilogue gl
        (loadCubemapFace gl self (gl.prop "TEXTURE_CUBE_MAP_NEGATIVE_Z") (B ++ "negative-z.png")
        (loadCubemapFace gl self (gl.prop "TEXTURE_CUBE_MAP_POSITIVE_Z") (B ++ "positive-z.png")
        (loadCubemapFace gl self (gl.prop "TEXTURE_CUBE_MAP_NEGATIVE_Y") (B ++ "negative-y.png")
        (loadCubemapFace gl self (gl.prop "TEXTURE_CUBE_MAP_POSITIVE_Y") (B ++ "positive-y.png")
        (loadCubemapFace gl self (gl.prop "TEXTURE_CUBE_MAP_NEGATIVE_X") (B ++ "negative-x.png")
        (loadCubemapFace gl self (gl.prop "TEXTURE_CUBE_MAP_POSITIVE_X") (B ++ "positive-x.png")
          (prologue gl self w)))))))
    ∧ loadCubeFaces gl self B w =
        epilogue gl ((facePairs gl B).foldl
          (fun w p => loadCubemapFace gl self p.1 p.2 w) (prologue gl self w))
    ∧ (facePairs gl B).length = 6
    ∧ fetchUrls (loadCubeFaces gl self B w).log =
        fetchUrls w.log ++
          [B ++ "positive-x.png", B ++ "negative-x.png", B ++ "positive-y.png",
           B ++ "negative-y.png", B ++ "positive-z.png", B ++ "negative-z.png"] := by
  refine ⟨?_, loadCubeFaces_eq_pairs gl self B w, rfl, ?_⟩
  · rw [loadCubeFaces_eq_pairs]; rfl
  · rw [loadCubeFaces_log, fetchUrls_append, fetchUrls_loadEvents]; rfl

/-- C2: right after `loadCubeFaces` returns, before any `onload` handler has
run (all six closures are still registered and the call logged no image
upload), every one of the six face targets has had empty storage allocated by
`texImage2D(target, 0, RGBA, 512, 512, 0, RGBA, UNSIGNED_BYTE, null)`, and the
level-0 image of that face of the loader texture is blank 512 x 512 RGBA /
UNSIGNED_BYTE storage. -/
theorem loadCubeFaces_allocates_placeholders (gl : GLContext) (self : CubeTexture)
    (B : String) (w : World) :
    ∃ issued : List Event,
      (loadCubeFaces gl self B w).log = w.log ++ issued
      ∧ (loadCubeFaces gl self B w).pending = w.pending ++ loadPending gl self w.nextImage
      ∧ (∀ t lvl f1 f2 ty im d, Event.gl (.texImage2DImage t lvl f1 f2 ty im d) ∉ issued)
      ∧ ∀ t ∈ gl.faceTargets,
          Event.gl (.texImage2D t 0 (gl.prop "RGBA") 512 512 0 (gl.prop "RGBA")
            (gl.prop "UNSIGNED_BYTE") none) ∈ issued
          ∧ (loadCubeFaces gl self B w).gl.level0 self.glTexture t =
              some (.blank 512 512 (gl.prop "RGBA") (gl.prop "UNSIGNED_BYTE")) := by
  refine ⟨loadEvents gl self B w.nextImage, loadCubeFaces_log gl self B w,
    loadCubeFaces_pending gl self B w, ?_, ?_⟩
  · intro t lvl f1 f2 ty im d
    simp [loadEvents, placeholderCall]
  · intro t ht
    refine ⟨?_, ?_⟩
    · simp only [GLContext.faceTargets, List.mem_cons, List.mem_singleton, List.not_mem_nil,
        or_false] at ht
      rcases ht with h | h | h | h | h | h <;> subst h <;> simp [loadEvents, placeholderCall]
    · rw [loadCubeFaces_level0]; simp [ht]

/-- C8: the events one `loadCubeFaces` call issues are, in order: bind the
loader texture to the cube-map target, set the magnification filter to LINEAR,
set the minification filter to LINEAR_MIPMAP_LINEAR, then for each face its
placeholder allocation followed by the start of its fetch, then one
`generateMipmap` (after all six fetches have been started, while all six
closures are still registered), and finally the unbinding; the cube-map binding
is null when the call returns. -/
theorem loadCubeFaces_call_sequence (gl : GLContext) (self : CubeTexture) (B : String)
    (w : World) :
    (loadCubeFaces gl self B w).log = w.log ++
      [.gl (.bindTexture (gl.prop "TEXTURE_CUBE_MAP") (some self.glTexture)),
       .gl (.texParameteri (gl.prop "TEXTURE_CUBE_MAP") (gl.prop "TEXTURE_MAG_FILTER")
          (gl.prop "LINEAR")),
       .gl (.texParameteri (gl.prop "TEXTURE_CUBE_MAP") (gl.prop "TEXTURE_MIN_FILTER")
          (gl.prop "LINEAR_MIPMAP_LINEAR")),
       .gl (.texImage2D (gl.prop "TEXTURE_CUBE_MAP_POSITIVE_X") 0 (gl.prop "RGBA") 512 512 0
          (gl.prop "RGBA") (gl.prop "UNSIGNED_BYTE") none),
       .imageSrc w.nextImage (B ++ "positive-x.png"),
       .gl (.texImage2D (gl.prop "TEXTURE_CUBE_MAP_NEGATIVE_X") 0 (gl.prop "RGBA") 512 512 0
          (gl.prop "RGBA") (gl.prop "UNSIGNED_BYTE") none),
       .imageSrc (w.nextImage + 1) (B ++ "negative-x.png"),
       .gl (.texImage2D (gl.prop "TEXTURE_CUBE_MAP_POSITIVE_Y") 0 (gl.prop "RGBA") 512 512 0
          (gl.prop "RGBA") (gl.prop "UNSIGNED_BYTE") none),
       .imageSrc (w.nextImage + 2) (B ++ "positive-y.png"),
       .gl (.texImage2D (gl.prop "TEXTURE_CUBE_MAP_NEGATIVE_Y") 0 (gl.prop "RGBA") 512 512 0
          (gl.prop "RGBA") (gl.prop "UNSIGNED_BYTE") none),
       .imageSrc (w.nextImage + 3) (B ++ "negative-y.png"),
       .gl (.texImage2D (gl.prop "TEXTURE_CUBE_MAP_POSITIVE_Z") 0 (gl.prop "RGBA") 512 512 0
          (gl.prop "RGBA") (gl.prop "UNSIGNED_BYTE") none),
       .imageSrc (w.nextImage + 4) (B ++ "positive-z.png"),
       .gl (.texImage2D (gl.prop "TEXTURE_CUBE_MAP_NEGATIVE_Z") 0 (gl.prop "RGBA") 512 512 0
          (gl.prop "RGBA") (gl.prop "UNSIGNED_BYTE") none),
       .imageSrc (w.nextImage + 5) (B ++ "negative-z.png"),
       .gl (.generateMipmap (gl.prop "TEXTURE_CUBE_MAP")),
       .gl (.bindTexture (gl.prop "TEXTURE_CUBE_MAP") none)]
    ∧ (loadCubeFaces gl self B w).pending = w.pending ++ loadPending gl self w.nextImage
    ∧ (loadCubeFaces gl self B w).gl.boundCube = none := by
  refine ⟨?_, loadCubeFaces_pending gl self B w, loadCubeFaces_boundCube gl self B w⟩
  rw [loadCubeFaces_log]; rfl

/-! ## Claims about the constructor -/

theorem call_log (gl : GLContext) (w : World) (c : GLCall) :
    (w.call gl c).log = w.log ++ [Event.gl c] := rfl

theorem call_pending (gl : GLContext) (w : World) (c : GLCall) :
    (w.call gl c).pending = w.pending := rfl

theorem call_nextImage (gl : GLContext) (w : World) (c : GLCall) :
    (w.call gl c).nextImage = w.nextImage := rfl

theorem createCount_create (h : Handle) :
    createCount [Event.gl (.createTexture h)] = 1 := rfl

theorem fetchUrls_call (c : GLCall) : fetchUrls [Event.gl c] = [] := rfl

theorem new_truthy (gl : GLContext) (B : String) (w : World) (hB : B ≠ "") :
    new gl (some B) w =
      ({ glTexture := w.gl.nextTexture },
        loadCubeFaces gl { glTexture := w.gl.nextTexture } B
          (w.call gl (.createTexture w.gl.nextTexture))) := by
  simp [new, truthy, hB]

theorem new_falsy (gl : GLContext) (source : Option String) (w : World)
    (hs : truthy source = false) :
    new gl source w =
      ({ glTexture := w.gl.nextTexture }, w.call gl (.createTexture w.gl.nextTexture)) := by
  cases source with
  | none => rfl
  | some s => simp [new, hs]

/-- C3: constructing a `CubeTexture` without a base URL logs exactly one event,
the `createTexture` call: no fetch is started, no closure is registered, the
cube-map binding and every face image are left as they were, and the object
holds the handle `createTexture` returned. -/
theorem new_without_source (gl : GLContext) (w : World) :
    (new gl none w).2.log = w.log ++ [.gl (.createTexture w.gl.nextTexture)]
    ∧ (new gl none w).1.glTexture = w.gl.nextTexture
    ∧ fetchUrls (new gl none w).2.log = fetchUrls w.log
    ∧ (new gl none w).2.pending = w.pending
    ∧ (new gl none w).2.nextImage = w.nextImage
    ∧ (new gl none w).2.gl.boundCube = w.gl.boundCube
    ∧ (new gl none w).2.gl.level0 = w.gl.level0 := by
  refine ⟨rfl, rfl, ?_, rfl, rfl, rfl, rfl⟩
  show fetchUrls (w.log ++ [Event.gl (.createTexture w.gl.nextTexture)]) = fetchUrls w.log
  rw [fetchUrls_append, fetchUrls_call, List.append_nil]

/-- C4 fails for the empty string: it is a string, yet it is falsy, so the
constructor only creates the texture and starts no fetch. -/
theorem new_empty_string_starts_nothing :
    (new webgl (some "") World.fresh).2.log = [.gl (.createTexture 0)]
    ∧ (new webgl (some "") World.fresh).2.pending = []
    ∧ fetchUrls (new webgl (some "") World.fresh).2.log = [] := by
  refine ⟨?_, ?_, ?_⟩ <;> rfl

/-- C4 (amended): for every non-empty base URL string the constructor creates
the texture and runs `loadCubeFaces` with that base URL before it returns, so
the six fetches have been started and their six closures are registered. -/
theorem new_with_source_loads (gl : GLContext) (B : String) (w : World) (hB : B ≠ "") :
    (new gl (some B) w).1.glTexture = w.gl.nextTexture
    ∧ (new gl (some B) w).2 =
        loadCubeFaces gl (new gl (some B) w).1 B (w.call gl (.createTexture w.gl.nextTexture))
    ∧ fetchUrls (new gl (some B) w).2.log =
        fetchUrls w.log ++
          [B ++ "positive-x.png", B ++ "negative-x.png", B ++ "positive-y.png",
           B ++ "negative-y.png", B ++ "positive-z.png", B ++ "negative-z.png"]
    ∧ (new gl (some B) w).2.pending =
        w.pending ++ loadPending gl (new gl (some B) w).1 w.nextImage := by
  rw [new_truthy gl B w hB]
  refine ⟨rfl, rfl, ?_, ?_⟩
  · simp only [loadCubeFaces_log, fetchUrls_append, fetchUrls_loadEvents, call_log,
      fetchUrls_call, List.append_nil]
    rfl
  · simp only [loadCubeFaces_pending]; rfl

/-- Witness of C4 (amended) at the base URL `"img/"` on a new context. -/
theorem new_with_source_loads_witness :
    "img/" ≠ "" ∧
    ((new webgl (some "img/") World.fresh).1.glTexture = World.fresh.gl.nextTexture
    ∧ (new webgl (some "img/") World.fresh).2 =
        loadCubeFaces webgl (new webgl (some "img/") World.fresh).1 "img/"
          (World.fresh.call webgl (.createTexture World.fresh.gl.nextTexture))
    ∧ fetchUrls (new webgl (some "img/") World.fresh).2.log =
        fetchUrls World.fresh.log ++
          ["img/" ++ "positive-x.png", "img/" ++ "negative-x.png", "img/" ++ "positive-y.png",
           "img/" ++ "negative-y.png", "img/" ++ "positive-z.png", "img/" ++ "negative-z.png"]
    ∧ (new webgl (some "img/") World.fresh).2.pending =
        World.fresh.pending ++
          loadPending webgl (new webgl (some "img/") World.fresh).1 World.fresh.nextImage) :=
  ⟨by decide, new_with_source_loads webgl "img/" World.fresh (by decide)⟩

theorem new_log (gl : GLContext) (source : Option String) (w : World) :
    createCount (new gl source w).2.log = createCount w.log + 1 := by
  by_cases hs : truthy source = true
  · cases source with
    | none => simp [truthy] at hs
    | some B =>
      have hB : B ≠ "" := by simpa [truthy] using hs
      rw [new_truthy gl B w hB]
      simp only [loadCubeFaces_log, createCount_append, createCount_loadEvents, call_log,
        createCount_create, Nat.add_zero]
  · rw [new_falsy gl source w (by simpa using hs)]
    simp only [createCount_append, call_log, createCount_create]

theorem new_glTexture (gl : GLContext) (source : Option String) (w : World) :
    (new gl source w).1.glTexture = w.gl.nextTexture := by
  by_cases hs : truthy source = true
  · cases source with
    | none => simp [truthy] at hs
    | some B =>
      have hB : B ≠ "" := by simpa [truthy] using hs
      rw [new_truthy gl B w hB]
  · rw [new_falsy gl source w (by simpa using hs)]

/-! ## Steps and runs -/

theorem step_load_of_mem (gl : GLContext) (self : CubeTexture) (w : World) (p : Pending)
    (data : ImageData) (hp : p ∈ w.pending) :
    step gl self w (.load p data) =
      onload gl p data { w with pending := w.pending.erase p } := by
  simp [step, hp]

theorem step_load_of_not_mem (gl : GLContext) (self : CubeTexture) (w : World) (p : Pending)
    (data : ImageData) (hp : p ∉ w.pending) :
    step gl self w (.load p data) = w := by
  simp [step, hp]

theorem step_load_level0 (gl : GLContext) (self : CubeTexture) (w : World) (p : Pending)
    (data : ImageData) (h : Handle) (t : GLenum) (ht : ¬ (h = p.glTexture ∧ t = p.target)) :
    (step gl self w (.load p data)).gl.level0 h t = w.gl.level0 h t := by
  by_cases hp : p ∈ w.pending
  · rw [step_load_of_mem gl self w p data hp, onload_level0, if_neg]
    exact fun hc => ht ⟨hc.1, hc.2.1⟩
  · rw [step_load_of_not_mem gl self w p data hp]

theorem run_nil (gl : GLContext) (self : CubeTexture) (w : World) :
    run gl self w [] = w := rfl

theorem run_cons (gl : GLContext) (self : CubeTexture) (w : World) (a : Action)
    (as : List Action) :
    run gl self w (a :: as) = run gl self (step gl self w a) as := rfl

theorem run_createCount (gl : GLContext) (self : CubeTexture) (as : List Action) :
    ∀ w : World, createCount (run gl self w as).log = createCount w.log := by
  induction as with
  | nil => intro w; rfl
  | cons a as ih =>
    intro w
    rw [run_cons, ih]
    cases a with
    | loadCubeFaces source =>
      show createCount (loadCubeFaces gl self source w).log = _
      rw [loadCubeFaces_log, createCount_append, createCount_loadEvents, Nat.add_zero]
    | load p d =>
      by_cases hp : p ∈ w.pending
      · rw [step_load_of_mem gl self w p d hp, onload_log, createCount_append]
        show createCount w.log + 0 = createCount w.log
        rfl
      · rw [step_load_of_not_mem gl self w p d hp]

/-- C7: calling `loadCubeFaces(B)` twice on a constructed `CubeTexture` starts
twelve fetches, the six URLs of `B` in order and then the same six again, and
creates no texture: over the constructor and both calls `createTexture` is
called exactly once, and both calls bind, and register closures for, the handle
the constructor stored. More generally, over the constructor and any run of
`loadCubeFaces` calls and `onload` handlers, `createTexture` is called exactly
once. -/
theorem loadCubeFaces_twice (gl : GLContext) (source : Option String) (B : String)
    (w0 : World) :
    let self := (new gl source w0).1
    let w1 := (new gl source w0).2
    let w2 := loadCubeFaces gl self B (loadCubeFaces gl self B w1)
    self.glTexture = w0.gl.nextTexture
    ∧ w2.log = w1.log ++ (loadEvents gl self B w1.nextImage
        ++ loadEvents gl self B (w1.nextImage + 6))
    ∧ fetchUrls w2.log = fetchUrls w1.log ++
        ([B ++ "positive-x.png", B ++ "negative-x.png", B ++ "positive-y.png",
          B ++ "negative-y.png", B ++ "positive-z.png", B ++ "negative-z.png"]
        ++ [B ++ "positive-x.png", B ++ "negative-x.png", B ++ "positive-y.png",
          B ++ "negative-y.png", B ++ "positive-z.png", B ++ "negative-z.png"])
    ∧ (fetchUrls w2.log).length = (fetchUrls w1.log).length + 12
    ∧ createCount w2.log = createCount w0.log + 1
    ∧ createCount (loadEvents gl self B w1.nextImage
        ++ loadEvents gl self B (w1.nextImage + 6)) = 0
    ∧ w2.pending = w1.pending ++ (loadPending gl self w1.nextImage
        ++ loadPending gl self (w1.nextImage + 6))
    ∧ ∀ as : List Action, createCount (run gl self w1 as).log = createCount w0.log + 1 := by
  intro self w1 w2
  have hlog : w2.log = w1.log ++ (loadEvents gl self B w1.nextImage
      ++ loadEvents gl self B (w1.nextImage + 6)) := by
    simp only [w2, loadCubeFaces_log, loadCubeFaces_nextImage, List.append_assoc]
  have hurls : fetchUrls w2.log = fetchUrls w1.log ++
      ([B ++ "positive-x.png", B ++ "negative-x.png", B ++ "positive-y.png",
        B ++ "negative-y.png", B ++ "positive-z.png", B ++ "negative-z.png"]
      ++ [B ++ "positive-x.png", B ++ "negative-x.png", B ++ "positive-y.png",
        B ++ "negative-y.png", B ++ "positive-z.png", B ++ "negative-z.png"]) := by
    rw [hlog]; simp only [fetchUrls_append, fetchUrls_loadEvents]; rfl
  refine ⟨new_glTexture gl source w0, hlog, hurls, ?_, ?_, ?_, ?_, ?_⟩
  · rw [hurls]; simp
  · rw [hlog]
    simp only [createCount_append, createCount_loadEvents, w1, new_log]
  · simp only [createCount_append, createCount_loadEvents]
  · simp only [w2, loadCubeFaces_pending, loadCubeFaces_nextImage, List.append_assoc]
  · intro as
    rw [run_createCount gl self as w1]
    exact new_log gl source w0

/-! ## Claims about the `onload` handler -/

/-- C5: let `F` be a face whose fetch was started by `loadCubemapFace(F, url)`,
which registers the closure `p` capturing the new image, `F` and the loader
handle. In every state in which `p` is registered, running it for the decoded
image `data` logs exactly `bindTexture(TEXTURE_CUBE_MAP, handle)`,
`texImage2D(F, 0, RGBA, RGBA, UNSIGNED_BYTE, image)`,
`generateMipmap(TEXTURE_CUBE_MAP)`, `bindTexture(TEXTURE_CUBE_MAP, null)` in
that order; afterwards the level-0 image of face `F` of the loader texture is
`data`, and the level-0 image of every other face, and of every face of every
other texture, is what it was. -/
theorem onload_uploads_own_face (gl : GLContext) (self : CubeTexture) (F : GLenum)
    (url : String) (w0 w : World) (data : ImageData)
    (hF : F ∈ gl.faceTargets)
    (hp : (⟨w0.nextImage, F, self.glTexture⟩ : Pending) ∈ w.pending) :
    (⟨w0.nextImage, F, self.glTexture⟩ : Pending) ∈ (loadCubemapFace gl self F url w0).pending
    ∧ (step gl self w (.load ⟨w0.nextImage, F, self.glTexture⟩ data)).log = w.log ++
        [.gl (.bindTexture (gl.prop "TEXTURE_CUBE_MAP") (some self.glTexture)),
         .gl (.texImage2DImage F 0 (gl.prop "RGBA") (gl.prop "RGBA") (gl.prop "UNSIGNED_BYTE")
            w0.nextImage data),
         .gl (.generateMipmap (gl.prop "TEXTURE_CUBE_MAP")),
         .gl (.bindTexture (gl.prop "TEXTURE_CUBE_MAP") none)]
    ∧ (step gl self w (.load ⟨w0.nextImage, F, self.glTexture⟩ data)).gl.level0
        self.glTexture F = some (.decoded data (gl.prop "RGBA") (gl.prop "UNSIGNED_BYTE"))
    ∧ (∀ t, t ≠ F →
        (step gl self w (.load ⟨w0.nextImage, F, self.glTexture⟩ data)).gl.level0
          self.glTexture t = w.gl.level0 self.glTexture t)
    ∧ (∀ h t, h ≠ self.glTexture →
        (step gl self w (.load ⟨w0.nextImage, F, self.glTexture⟩ data)).gl.level0 h t =
          w.gl.level0 h t) := by
  refine ⟨?_, ?_, ?_, ?_, ?_⟩
  · simp [loadCubemapFace, World.call]
  · rw [step_load_of_mem gl self w _ data hp, onload_log]; rfl
  · rw [step_load_of_mem gl self w _ data hp, onload_level0]
    simp [hF]
  · intro t ht
    exact step_load_level0 gl self w _ data _ _ (fun hc => ht hc.2)
  · intro h t hh
    exact step_load_level0 gl self w _ data _ _ (fun hc => hh hc.1)

/-- Witness of C5: the closure of the +X face registered on a new context. -/
theorem onload_uploads_own_face_witness :
    (0x8515 ∈ webgl.faceTargets
      ∧ (⟨World.fresh.nextImage, 0x8515, 0⟩ : Pending) ∈
          (loadCubemapFace webgl ⟨0⟩ 0x8515 "u" World.fresh).pending)
    ∧ ((⟨World.fresh.nextImage, 0x8515, 0⟩ : Pending) ∈
          (loadCubemapFace webgl ⟨0⟩ 0x8515 "u" World.fresh).pending
      ∧ (step webgl ⟨0⟩ (loadCubemapFace webgl ⟨0⟩ 0x8515 "u" World.fresh)
          (.load ⟨World.fresh.nextImage, 0x8515, 0⟩ [1, 2, 3])).log =
          (loadCubemapFace webgl ⟨0⟩ 0x8515 "u" World.fresh).log ++
          [.gl (.bindTexture (webgl.prop "TEXTURE_CUBE_MAP") (some 0)),
           .gl (.texImage2DImage 0x8515 0 (webgl.prop "RGBA") (webgl.prop "RGBA")
              (webgl.prop "UNSIGNED_BYTE") World.fresh.nextImage [1, 2, 3]),
           .gl (.generateMipmap (webgl.prop "TEXTURE_CUBE_MAP")),
           .gl (.bindTexture (webgl.prop "TEXTURE_CUBE_MAP") none)]
      ∧ (step webgl ⟨0⟩ (loadCubemapFace webgl ⟨0⟩ 0x8515 "u" World.fresh)
          (.load ⟨World.fresh.nextImage, 0x8515, 0⟩ [1, 2, 3])).gl.level0 0 0x8515 =
          some (.decoded [1, 2, 3] (webgl.prop "RGBA") (webgl.prop "UNSIGNED_BYTE"))
      ∧ (∀ t, t ≠ 0x8515 →
          (step webgl ⟨0⟩ (loadCubemapFace webgl ⟨0⟩ 0x8515 "u" World.fresh)
            (.load ⟨World.fresh.nextImage, 0x8515, 0⟩ [1, 2, 3])).gl.level0 0 t =
            (loadCubemapFace webgl ⟨0⟩ 0x8515 "u" World.fresh).gl.level0 0 t)
      ∧ (∀ h t, h ≠ 0 →
          (step webgl ⟨0⟩ (loadCubemapFace webgl ⟨0⟩ 0x8515 "u" World.fresh)
            (.load ⟨World.fresh.nextImage, 0x8515, 0⟩ [1, 2, 3])).gl.level0 h t =
            (loadCubemapFace webgl ⟨0⟩ 0x8515 "u" World.fresh).gl.level0 h t)) :=
  ⟨⟨by decide, by decide⟩,
    onload_uploads_own_face webgl ⟨0⟩ 0x8515 "u" World.fresh
      (loadCubemapFace webgl ⟨0⟩ 0x8515 "u" World.fresh) [1, 2, 3] (by decide) (by decide)⟩

/-! ## A face whose handler never runs -/

theorem run_keeps_placeholder (gl : GLContext) (self : CubeTexture) (F : GLenum)
    (hF : F ∈ gl.faceTargets) (as : List Action) :
    ∀ w : World, (∀ p d, Action.load p d ∈ as → p.target ≠ F) →
      w.gl.level0 self.glTexture F =
        some (.blank 512 512 (gl.prop "RGBA") (gl.prop "UNSIGNED_BYTE")) →
      (run gl self w as).gl.level0 self.glTexture F =
        some (.blank 512 512 (gl.prop "RGBA") (gl.prop "UNSIGNED_BYTE")) := by
  induction as with
  | nil => intro w _ hw; exact hw
  | cons a as ih =>
    intro w hno hw
    rw [run_cons]
    apply ih
    · intro p d hm; exact hno p d (List.mem_cons_of_mem _ hm)
    · cases a with
      | loadCubeFaces source =>
        show (loadCubeFaces gl self source w).gl.level0 self.glTexture F = _
        rw [loadCubeFaces_level0]; simp [hF]
      | load p d =>
        have hne : p.target ≠ F := hno p d (List.mem_cons_self _ _)
        rw [step_load_level0 gl self w p d _ _ (fun hc => hne hc.2.symm)]
        exact hw

theorem run_no_upload (gl : GLContext) (self : CubeTexture) (F : GLenum) (as : List Action) :
    ∀ w : World, (∀ p d, Action.load p d ∈ as → p.target ≠ F) →
      ∀ lvl f1 f2 ty im d,
        Event.gl (.texImage2DImage F lvl f1 f2 ty im d) ∈ (run gl self w as).log →
        Event.gl (.texImage2DImage F lvl f1 f2 ty im d) ∈ w.log := by
  induction as with
  | nil => intro w _ lvl f1 f2 ty im d hm; exact hm
  | cons a as ih =>
    intro w hno lvl f1 f2 ty im d hm
    rw [run_cons] at hm
    have h1 := ih (step gl self w a)
      (fun p d hm => hno p d (List.mem_cons_of_mem _ hm)) lvl f1 f2 ty im d hm
    cases a with
    | loadCubeFaces source =>
      have h2 : Event.gl (.texImage2DImage F lvl f1 f2 ty im d) ∈
          (loadCubeFaces gl self source w).log := h1
      rw [loadCubeFaces_log, List.mem_append] at h2
      rcases h2 with h2 | h2
      · exact h2
      · simp [loadEvents, placeholderCall] at h2
    | load p d2 =>
      have hne : p.target ≠ F := hno p d2 (List.mem_cons_self _ _)
      by_cases hp : p ∈ w.pending
      · rw [step_load_of_mem gl self w p d2 hp, onload_log, List.mem_append] at h1
        rcases h1 with h1 | h1
        · exact h1
        · simp [onloadEvents] at h1
          exact absurd h1.1.symm hne
      · rw [step_load_of_not_mem gl self w p d2 hp] at h1
        exact h1

theorem run_keeps_pending (gl : GLContext) (self : CubeTexture) (F : GLenum)
    (as : List Action) :
    ∀ w : World, (∀ p d, Action.load p d ∈ as → p.target ≠ F) →
      ∀ q ∈ w.pending, q.target = F → q ∈ (run gl self w as).pending := by
  induction as with
  | nil => intro w _ q hq _; exact hq
  | cons a as ih =>
    intro w hno q hq hqF
    rw [run_cons]
    apply ih _ (fun p d hm => hno p d (List.mem_cons_of_mem _ hm)) q _ hqF
    cases a with
    | loadCubeFaces source =>
      show q ∈ (loadCubeFaces gl self source w).pending
      rw [loadCubeFaces_pending]
      exact List.mem_append_left _ hq
    | load p d =>
      have hne : p.target ≠ F := hno p d (List.mem_cons_self _ _)
      by_cases hp : p ∈ w.pending
      · rw [step_load_of_mem gl self w p d hp, onload_pending]
        have hqp : q ≠ p := fun hc => hne (hc ▸ hqF)
        exact (List.mem_erase_of_ne hqp).2 hq
      · rw [step_load_of_not_mem gl self w p d hp]
        exact hq

/-- C6: let `F` be a face target, and take any run after a `loadCubeFaces` call
in which no `onload` closure for `F` ever runs (its fetch fails or never
resolves), whatever else happens: closures of other faces run, `loadCubeFaces`
is called again. Then no image upload for `F` is issued during the run, face
`F` of the loader texture keeps the blank 512 x 512 placeholder storage, and
every closure registered for `F` is still waiting: the face never becomes
populated. Every step of the run is a total function of the state, so no error
is produced. -/
theorem unloaded_face_stays_blank (gl : GLContext) (self : CubeTexture) (B : String)
    (w0 : World) (F : GLenum) (as : List Action)
    (hF : F ∈ gl.faceTargets)
    (hno : ∀ p d, Action.load p d ∈ as → p.target ≠ F) :
    (∀ lvl f1 f2 ty im d,
        Event.gl (.texImage2DImage F lvl f1 f2 ty im d) ∈
          (run gl self (loadCubeFaces gl self B w0) as).log →
        Event.gl (.texImage2DImage F lvl f1 f2 ty im d) ∈ w0.log)
    ∧ (run gl self (loadCubeFaces gl self B w0) as).gl.level0 self.glTexture F =
        some (.blank 512 512 (gl.prop "RGBA") (gl.prop "UNSIGNED_BYTE"))
    ∧ (∀ q ∈ (loadCubeFaces gl self B w0).pending, q.target = F →
        q ∈ (run gl self (loadCubeFaces gl self B w0) as).pending)
    ∧ (∃ q ∈ (run gl self (loadCubeFaces gl self B w0) as).pending,
        q.target = F ∧ q.glTexture = self.glTexture) := by
  have hup := run_no_upload gl self F as (loadCubeFaces gl self B w0) hno
  have hkeep := run_keeps_pending gl self F as (loadCubeFaces gl self B w0) hno
  refine ⟨?_, ?_, hkeep, ?_⟩
  · intro lvl f1 f2 ty im d hm
    have h2 := hup lvl f1 f2 ty im d hm
    rw [loadCubeFaces_log, List.mem_append] at h2
    rcases h2 with h2 | h2
    · exact h2
    · simp [loadEvents, placeholderCall] at h2
  · apply run_keeps_placeholder gl self F hF as _ hno
    rw [loadCubeFaces_level0]; simp [hF]
  · have hex : ∃ q ∈ loadPending gl self w0.nextImage,
        q.target = F ∧ q.glTexture = self.glTexture := by
      simp only [GLContext.faceTargets, List.mem_cons, List.mem_singleton, List.not_mem_nil,
        or_false] at hF
      rcases hF with h | h | h | h | h | h <;> subst h <;> simp [loadPending]
    obtain ⟨q, hq, hqF, hqT⟩ := hex
    refine ⟨q, hkeep q ?_ hqF, hqF, hqT⟩
    rw [loadCubeFaces_pending]
    exact List.mem_append_right _ hq

/-- Witness of C6: on a new context the handler of -X runs and `loadCubeFaces`
is called again, while no handler of +X ever runs. -/
theorem unloaded_face_stays_blank_witness :
    (0x8515 ∈ webgl.faceTargets
      ∧ ∀ p d, Action.load p d ∈ [Action.load ⟨1, 0x8516, 0⟩ [9], Action.loadCubeFaces "b"] →
          p.target ≠ 0x8515)
    ∧ ((∀ lvl f1 f2 ty im d,
        Event.gl (.texImage2DImage 0x8515 lvl f1 f2 ty im d) ∈
          (run webgl ⟨0⟩ (loadCubeFaces webgl ⟨0⟩ "a" World.fresh)
            [Action.load ⟨1, 0x8516, 0⟩ [9], Action.loadCubeFaces "b"]).log →
        Event.gl (.texImage2DImage 0x8515 lvl f1 f2 ty im d) ∈ World.fresh.log)
      ∧ (run webgl ⟨0⟩ (loadCubeFaces webgl ⟨0⟩ "a" World.fresh)
          [Action.load ⟨1, 0x8516, 0⟩ [9], Action.loadCubeFaces "b"]).gl.level0 0 0x8515 =
          some (.blank 512 512 (webgl.prop "RGBA") (webgl.prop "UNSIGNED_BYTE"))
      ∧ (∀ q ∈ (loadCubeFaces webgl ⟨0⟩ "a" World.fresh).pending, q.target = 0x8515 →
          q ∈ (run webgl ⟨0⟩ (loadCubeFaces webgl ⟨0⟩ "a" World.fresh)
            [Action.load ⟨1, 0x8516, 0⟩ [9], Action.loadCubeFaces "b"]).pending)
      ∧ (∃ q ∈ (run webgl ⟨0⟩ (loadCubeFaces webgl ⟨0⟩ "a" World.fresh)
            [Action.load ⟨1, 0x8516, 0⟩ [9], Action.loadCubeFaces "b"]).pending,
          q.target = 0x8515 ∧ q.glTexture = 0)) :=
  ⟨⟨by decide, by
      intro p d h
      simp only [List.mem_cons, List.mem_singleton, List.not_mem_nil, or_false, Action.load.injEq,
        reduceCtorEq] at h
      rcases h with ⟨rfl, _⟩
      decide⟩,
    unloaded_face_stays_blank webgl ⟨0⟩ "a" World.fresh 0x8515
      [Action.load ⟨1, 0x8516, 0⟩ [9], Action.loadCubeFaces "b"] (by decide) (by
        intro p d h
        simp only [List.mem_cons, List.mem_singleton, List.not_mem_nil, or_false,
          Action.load.injEq, reduceCtorEq] at h
        rcases h with ⟨rfl, _⟩
        decide)⟩

/-! ## Outstanding fetches -/

theorem outstanding_loadCubeFaces (gl : GLContext) (self : CubeTexture) (source : String)
    (w : World) :
    outstanding self (loadCubeFaces gl self source w) = outstanding self w + 6 := by
  simp [outstanding, loadCubeFaces_pending, loadPending, List.filter_append]

theorem outstanding_load (gl : GLContext) (self : CubeTexture) (w : World) (p : Pending)
    (d : ImageData) :
    outstanding self (step gl self w (.load p d)) ≤ outstanding self w := by
  by_cases hp : p ∈ w.pending
  · rw [step_load_of_mem gl self w p d hp]
    unfold outstanding
    rw [onload_pending]
    exact ((List.erase_sublist p w.pending).filter _).length_le
  · rw [step_load_of_not_mem gl self w p d hp]

theorem outstanding_run (gl : GLContext) (self : CubeTexture) (as : List Action) :
    ∀ w : World, outstanding self (run gl self w as) ≤ outstanding self w + 6 * invocations as := by
  induction as with
  | nil => intro w; simp [run_nil, invocations]
  | cons a as ih =>
    intro w
    rw [run_cons]
    have h1 := ih (step gl self w a)
    cases a with
    | loadCubeFaces source =>
      have h2 : outstanding self (step gl self w (.loadCubeFaces source)) =
          outstanding self w + 6 := outstanding_loadCubeFaces gl self source w
      simp only [invocations]
      omega
    | load p d =>
      have h2 := outstanding_load gl self w p d
      simp only [invocations]
      omega

theorem outstanding_new (gl : GLContext) (source : Option String) (w : World) :
    outstanding (new gl source w).1 (new gl source w).2 =
      outstanding (new gl source w).1 w + 6 * (if truthy source then 1 else 0) := by
  by_cases hs : truthy source = true
  · cases source with
    | none => simp [truthy] at hs
    | some B =>
      have hB : B ≠ "" := by simpa [truthy] using hs
      rw [new_truthy gl B w hB, if_pos hs]
      simp only [outstanding_loadCubeFaces]
      rfl
  · rw [new_falsy gl source w (by simpa using hs), if_neg hs]
    rfl

/-- C9 fails: construct a loader with a base URL and call `loadCubeFaces` once
more before any image has loaded; twelve fetches are outstanding. -/
theorem twelve_outstanding_fetches :
    outstanding (new webgl (some "a") World.fresh).1
      (run webgl (new webgl (some "a") World.fresh).1 (new webgl (some "a") World.fresh).2
        [Action.loadCubeFaces "a"]) = 12
    ∧ ¬ outstanding (new webgl (some "a") World.fresh).1
      (run webgl (new webgl (some "a") World.fresh).1 (new webgl (some "a") World.fresh).2
        [Action.loadCubeFaces "a"]) ≤ 6 := by
  constructor <;> decide

/-- C9 (amended): in every state a `CubeTexture` reaches through its
constructor, any number of `loadCubeFaces` calls and any completion callbacks,
the number of outstanding fetches for its texture is at most six times the
number of `loadCubeFaces` runs so far (the one made by the constructor for a
truthy base URL included), on top of what was outstanding for that handle
before construction. -/
theorem outstanding_at_most_six_per_invocation (gl : GLContext) (source : Option String)
    (w0 : World) (as : List Action) :
    outstanding (new gl source w0).1 (run gl (new gl source w0).1 (new gl source w0).2 as) ≤
      outstanding (new gl source w0).1 w0 +
        6 * ((if truthy source then 1 else 0) + invocations as) := by
  have h1 := outstanding_run gl (new gl source w0).1 as (new gl source w0).2
  have h2 := outstanding_new gl source w0
  omega

/-! ## Completion order -/

theorem run_boundCube (gl : GLContext) (self : CubeTexture) (as : List Action) :
    ∀ w : World, w.gl.boundCube = none → (run gl self w as).gl.boundCube = none := by
  induction as with
  | nil => intro w hw; exact hw
  | cons a as ih =>
    intro w hw
    rw [run_cons]
    apply ih
    cases a with
    | loadCubeFaces source => exact loadCubeFaces_boundCube gl self source w
    | load p d =>
      by_cases hp : p ∈ w.pending
      · rw [step_load_of_mem gl self w p d hp]; exact onload_boundCube gl p d _
      · rw [step_load_of_not_mem gl self w p d hp]; exact hw

theorem step_load_pending (gl : GLContext) (self : CubeTexture) (w : World) (p : Pending)
    (d : ImageData) (hp : p ∈ w.pending) :
    (step gl self w (.load p d)).pending = w.pending.erase p := by
  rw [step_load_of_mem gl self w p d hp, onload_pending]

theorem step_load_level0_of_mem (gl : GLContext) (self : CubeTexture) (w : World)
    (p : Pending) (d : ImageData) (hp : p ∈ w.pending) (h : Handle) (t : GLenum) :
    (step gl self w (.load p d)).gl.level0 h t =
      if h = p.glTexture ∧ t = p.target ∧ p.target ∈ gl.faceTargets then
        some (.decoded d (gl.prop "RGBA") (gl.prop "UNSIGNED_BYTE"))
      else w.gl.level0 h t := by
  rw [step_load_of_mem gl self w p d hp, onload_level0]

theorem run_loadActions (gl : GLContext) (self : CubeTexture) (img : ImageId → ImageData)
    (h : Handle) (order : List Pending) :
    ∀ w : World, order.Nodup → (∀ p ∈ order, p ∈ w.pending) →
      (∀ p ∈ order, p.glTexture = h ∧ p.target ∈ gl.faceTargets) →
      (∀ p ∈ order, ∀ q ∈ order, p.target = q.target → p = q) →
      (∀ p ∈ order, (run gl self w (loadActions img order)).gl.level0 h p.target =
          some (.decoded (img p.image) (gl.prop "RGBA") (gl.prop "UNSIGNED_BYTE")))
      ∧ (∀ t, (∀ p ∈ order, p.target ≠ t) →
          (run gl self w (loadActions img order)).gl.level0 h t = w.gl.level0 h t) := by
  induction order with
  | nil =>
    intro w _ _ _ _
    exact ⟨fun p hp => absurd hp (List.not_mem_nil p), fun t _ => rfl⟩
  | cons p rest ih =>
    intro w hnd hmem hown hinj
    have hpw : p ∈ w.pending := hmem p (List.mem_cons_self _ _)
    have hnd2 := List.nodup_cons.1 hnd
    have hrest : ∀ q ∈ rest, q ∈ (step gl self w (.load p (img p.image))).pending := by
      intro q hq
      rw [step_load_pending gl self w p _ hpw]
      have hqp : q ≠ p := fun hc => hnd2.1 (hc ▸ hq)
      exact (List.mem_erase_of_ne hqp).2 (hmem q (List.mem_cons_of_mem _ hq))
    have hih := ih (step gl self w (.load p (img p.image))) hnd2.2 hrest
      (fun q hq => hown q (List.mem_cons_of_mem _ hq))
      (fun a ha b hb => hinj a (List.mem_cons_of_mem _ ha) b (List.mem_cons_of_mem _ hb))
    have hother : ∀ q ∈ rest, q.target ≠ p.target := by
      intro q hq hc
      have := hinj q (List.mem_cons_of_mem _ hq) p (List.mem_cons_self _ _) hc
      exact hnd2.1 (this ▸ hq)
    have hrun : run gl self w (loadActions img (p :: rest)) =
        run gl self (step gl self w (.load p (img p.image))) (loadActions img rest) := rfl
    rw [hrun]
    refine ⟨?_, ?_⟩
    · intro x hx
      rcases List.mem_cons.1 hx with hxp | hxr
      · subst hxp
        rw [hih.2 x.target hother, step_load_level0_of_mem gl self w x _ hpw]
        have hx2 := hown x (List.mem_cons_self _ _)
        simp [hx2.1, hx2.2]
      · exact hih.1 x hxr
    · intro t ht
      rw [hih.2 t (fun q hq => ht q (List.mem_cons_of_mem _ hq))]
      exact step_load_level0 gl self w p _ h t
        (fun hc => ht p (List.mem_cons_self _ _) hc.2.symm)

theorem loadPending_targets (gl : GLContext) (self : CubeTexture) (n : ImageId) :
    (loadPending gl self n).map (fun p => p.target) = gl.faceTargets := rfl

theorem loadPending_nodup (gl : GLContext) (self : CubeTexture) (n : ImageId) :
    (loadPending gl self n).Nodup := by
  simp [loadPending]

theorem loadPending_own (gl : GLContext) (self : CubeTexture) (n : ImageId) :
    ∀ p ∈ loadPending gl self n, p.glTexture = self.glTexture ∧ p.target ∈ gl.faceTargets := by
  intro p hp
  refine ⟨?_, ?_⟩
  · simp only [loadPending, List.mem_cons, List.mem_singleton, List.not_mem_nil, or_false] at hp
    rcases hp with h | h | h | h | h | h <;> subst h <;> rfl
  · rw [← loadPending_targets gl self n]
    exact List.mem_map_of_mem _ hp

theorem step_step_level0 (gl : GLContext) (self : CubeTexture) (w : World) (p q : Pending)
    (dp dq : ImageData) (hp : p ∈ w.pending) (hq : q ∈ w.pending)
    (hne : p.target ≠ q.target) (h : Handle) (t : GLenum) :
    (step gl self (step gl self w (.load p dp)) (.load q dq)).gl.level0 h t =
      if h = q.glTexture ∧ t = q.target ∧ q.target ∈ gl.faceTargets then
        some (.decoded dq (gl.prop "RGBA") (gl.prop "UNSIGNED_BYTE"))
      else if h = p.glTexture ∧ t = p.target ∧ p.target ∈ gl.faceTargets then
        some (.decoded dp (gl.prop "RGBA") (gl.prop "UNSIGNED_BYTE"))
      else w.gl.level0 h t := by
  have hqp : q ≠ p := fun hc => hne (hc ▸ rfl)
  have hq2 : q ∈ (step gl self w (.load p dp)).pending := by
    rw [step_load_pending gl self w p dp hp]
    exact (List.mem_erase_of_ne hqp).2 hq
  rw [step_load_level0_of_mem gl self _ q dq hq2, step_load_level0_of_mem gl self w p dp hp]

/-- C10: after one `loadCubeFaces` call, the completion callbacks of two
distinct faces commute: running the closure of `p` and then that of `q` gives
the same level-0 face images, the same registered closures and the same (null)
cube-map binding as running `q` and then `p`. Consequently, on a context whose
six face targets are pairwise distinct, whatever the order in which the six
fetches complete, in the final state every face of the loader texture holds the
image fetched for it and the cube-map binding is null. -/
theorem onload_callbacks_commute (gl : GLContext) (self : CubeTexture) (B : String)
    (w0 : World) (img : ImageId → ImageData) (hd : gl.faceTargets.Nodup) :
    (∀ p ∈ loadPending gl self w0.nextImage, ∀ q ∈ loadPending gl self w0.nextImage,
      p.target ≠ q.target → ∀ dp dq : ImageData,
        (step gl self (step gl self (loadCubeFaces gl self B w0) (.load p dp))
            (.load q dq)).gl.level0 =
          (step gl self (step gl self (loadCubeFaces gl self B w0) (.load q dq))
            (.load p dp)).gl.level0
        ∧ (step gl self (step gl self (loadCubeFaces gl self B w0) (.load p dp))
            (.load q dq)).pending =
          (step gl self (step gl self (loadCubeFaces gl self B w0) (.load q dq))
            (.load p dp)).pending
        ∧ (step gl self (step gl self (loadCubeFaces gl self B w0) (.load p dp))
            (.load q dq)).gl.boundCube = none
        ∧ (step gl self (step gl self (loadCubeFaces gl self B w0) (.load q dq))
            (.load p dp)).gl.boundCube = none)
    ∧ (∀ order : List Pending, order.Perm (loadPending gl self w0.nextImage) →
        (∀ p ∈ loadPending gl self w0.nextImage,
          (run gl self (loadCubeFaces gl self B w0) (loadActions img order)).gl.level0
            self.glTexture p.target =
              some (.decoded (img p.image) (gl.prop "RGBA") (gl.prop "UNSIGNED_BYTE")))
        ∧ (run gl self (loadCubeFaces gl self B w0) (loadActions img order)).gl.boundCube
            = none) := by
  have hsub : ∀ p ∈ loadPending gl self w0.nextImage,
      p ∈ (loadCubeFaces gl self B w0).pending := by
    intro p hp
    rw [loadCubeFaces_pending]
    exact List.mem_append_right _ hp
  refine ⟨?_, ?_⟩
  · intro p hp q hq hne dp dq
    have hpw := hsub p hp
    have hqw := hsub q hq
    have hpq : p ≠ q := fun hc => hne (hc ▸ rfl)
    have hq2 : q ∈ (step gl self (loadCubeFaces gl self B w0) (.load p dp)).pending := by
      rw [step_load_pending gl self _ p dp hpw]
      exact (List.mem_erase_of_ne (Ne.symm hpq)).2 hqw
    have hp2 : p ∈ (step gl self (loadCubeFaces gl self B w0) (.load q dq)).pending := by
      rw [step_load_pending gl self _ q dq hqw]
      exact (List.mem_erase_of_ne hpq).2 hpw
    refine ⟨?_, ?_, ?_, ?_⟩
    · funext h t
      rw [step_step_level0 gl self _ p q dp dq hpw hqw hne,
        step_step_level0 gl self _ q p dq dp hqw hpw (Ne.symm hne)]
      by_cases c1 : h = q.glTexture ∧ t = q.target ∧ q.target ∈ gl.faceTargets
      · have c2 : ¬ (h = p.glTexture ∧ t = p.target ∧ p.target ∈ gl.faceTargets) :=
          fun hc => hne (hc.2.1.symm.trans c1.2.1)
        rw [if_pos c1, if_neg c2, if_pos c1]
      · rw [if_neg c1]
        by_cases c2 : h = p.glTexture ∧ t = p.target ∧ p.target ∈ gl.faceTargets
        · rw [if_pos c2, if_pos c2]
        · rw [if_neg c2, if_neg c2, if_neg c1]
    · rw [step_load_pending gl self _ q dq hq2, step_load_pending gl self _ p dp hpw,
        step_load_pending gl self _ p dp hp2, step_load_pending gl self _ q dq hqw]
      exact List.erase_comm p q _
    · rw [step_load_of_mem gl self _ q dq hq2]; exact onload_boundCube gl q dq _
    · rw [step_load_of_mem gl self _ p dp hp2]; exact onload_boundCube gl p dp _
  · intro order hperm
    have hinj : ∀ p ∈ order, ∀ q ∈ order, p.target = q.target → p = q := by
      intro p hp q hq hpq
      have hnd : ((loadPending gl self w0.nextImage).map (fun p => p.target)).Nodup := by
        rw [loadPending_targets]; exact hd
      exact List.inj_on_of_nodup_map hnd (hperm.mem_iff.1 hp) (hperm.mem_iff.1 hq) hpq
    have hrun := run_loadActions gl self img self.glTexture order (loadCubeFaces gl self B w0)
      (hperm.nodup_iff.2 (loadPending_nodup gl self w0.nextImage))
      (fun p hp => hsub p (hperm.mem_iff.1 hp))
      (fun p hp => loadPending_own gl self w0.nextImage p (hperm.mem_iff.1 hp))
      hinj
    refine ⟨fun p hp => hrun.1 p (hperm.mem_iff.2 hp), ?_⟩
    exact run_boundCube gl self _ _ (loadCubeFaces_boundCube gl self B w0)

/-- Witness of C10: the standard WebGL face targets are pairwise distinct. -/
theorem onload_callbacks_commute_witness :
    webgl.faceTargets.Nodup
    ∧ ((∀ p ∈ loadPending webgl ⟨0⟩ World.fresh.nextImage,
        ∀ q ∈ loadPending webgl ⟨0⟩ World.fresh.nextImage,
        p.target ≠ q.target → ∀ dp dq : ImageData,
          (step webgl ⟨0⟩ (step webgl ⟨0⟩ (loadCubeFaces webgl ⟨0⟩ "a" World.fresh) (.load p dp))
              (.load q dq)).gl.level0 =
            (step webgl ⟨0⟩ (step webgl ⟨0⟩ (loadCubeFaces webgl ⟨0⟩ "a" World.fresh)
              (.load q dq)) (.load p dp)).gl.level0
          ∧ (step webgl ⟨0⟩ (step webgl ⟨0⟩ (loadCubeFaces webgl ⟨0⟩ "a" World.fresh)
              (.load p dp)) (.load q dq)).pending =
            (step webgl ⟨0⟩ (step webgl ⟨0⟩ (loadCubeFaces webgl ⟨0⟩ "a" World.fresh)
              (.load q dq)) (.load p dp)).pending
          ∧ (step webgl ⟨0⟩ (step webgl ⟨0⟩ (loadCubeFaces webgl ⟨0⟩ "a" World.fresh)
              (.load p dp)) (.load q dq)).gl.boundCube = none
          ∧ (step webgl ⟨0⟩ (step webgl ⟨0⟩ (loadCubeFaces webgl ⟨0⟩ "a" World.fresh)
              (.load q dq)) (.load p dp)).gl.boundCube = none)
      ∧ (∀ order : List Pending, order.Perm (loadPending webgl ⟨0⟩ World.fresh.nextImage) →
          (∀ p ∈ loadPending webgl ⟨0⟩ World.fresh.nextImage,
            (run webgl ⟨0⟩ (loadCubeFaces webgl ⟨0⟩ "a" World.fresh)
              (loadActions (fun i => [i]) order)).gl.level0 0 p.target =
                some (.decoded [p.image] (webgl.prop "RGBA") (webgl.prop "UNSIGNED_BYTE")))
          ∧ (run webgl ⟨0⟩ (loadCubeFaces webgl ⟨0⟩ "a" World.fresh)
              (loadActions (fun i => [i]) order)).gl.boundCube = none)) :=
  ⟨by decide, onload_callbacks_commute webgl ⟨0⟩ "a" World.fresh (fun i => [i]) (by decide)⟩

end CubeTexture
